import Mathlib

/-!
Shallow embedding of the courseware access-control engine in
`lms/djangoapps/courseware/access.py` (edx-platform excerpt).

Modelling conventions:
  * Timestamps and durations are rationals (`Rat`), measured in days, so
    `timedelta(days)` subtraction is plain subtraction.  `datetime.now(UTC())`
    is the environment field `now`.  Python's `x or datetime.min` /
    `or datetime.max` defaults on enrollment bounds are rendered by treating
    a missing bound as imposing no constraint, which coincides with the code
    for every value `now` can take (`datetime.now` always lies strictly
    between `datetime.min` and `datetime.max`).
  * External collaborators (role directory, masquerade state, feature flags,
    partition schemes, milestones, allowlist, external-auth records, request
    hostname) are fields of an `Env` record, passed to every function.
  * Fallible Python code (raised `NoSuchUserPartitionError` /
    `NoSuchUserPartitionGroupError` caught inside `_has_group_access`) is
    rendered with `Option`; a fatal `raise ValueError` ("unknown action") in
    `_dispatch` is rendered with `Except AccessError`.
  * Python functions that duck-type over "any object with attributes
    `.start`, `.days_early_for_beta`, `.location`, ..." take those attribute
    values (or a small record of them) as explicit arguments.
-/

namespace EdxAccess

/-- A Django user, as the access checks see it: `is_authenticated()` and the
`email` used for the enrollment allowlist.  Django's `AnonymousUser` is the
unauthenticated user; `User.is_anonymous()` is the negation of
`is_authenticated()` for every user the engine can receive. -/
structure User where
  is_authenticated : Bool
  email : String
deriving DecidableEq, Repr

/-- Django `user.is_anonymous()`: true exactly for `AnonymousUser`. -/
def User.is_anonymous (u : User) : Bool := !u.is_authenticated

/-- `AnonymousUser()` substituted by `has_access` when `user` is `None`. -/
def AnonymousUser : User := { is_authenticated := false, email := "" }

/-- An opaque course key (`CourseKey`), carrying the `org` used by the
org-wide roles. -/
structure CourseKey where
  org : String
  course : String
deriving DecidableEq, Repr

/-- A usage key / location; `location.course_key` recovers its course. -/
structure Location where
  course_key : CourseKey
deriving DecidableEq, Repr

/-- A `CCXLocator`; `to_course_locator` is its canonical course key. -/
structure CCXLocator where
  to_course_locator : CourseKey
deriving DecidableEq, Repr

/-- A user partition as consumed by `_has_group_access`.  `split_test` marks
partitions owned by the split-test experiment mechanism (the property
`get_split_user_partitions` filters on); `groups` are the ids of the groups
the partition defines. -/
structure UserPartition where
  id : Nat
  split_test : Bool
  groups : List Nat
deriving DecidableEq, Repr

/-- `partition.get_group(group_id)`: the group with that id, or
`NoSuchUserPartitionGroupError` (rendered `none`).  Groups are identified by
their ids. -/
def UserPartition.get_group (p : UserPartition) (gid : Nat) : Option Nat :=
  if p.groups.contains gid then some gid else none

/-- Modelled from the spec: `get_split_user_partitions` (in
`xmodule.split_test_module`, not part of this excerpt) returns the declared
partitions that are owned by the split-test experiment mechanism. -/
def get_split_user_partitions (ps : List UserPartition) : List UserPartition :=
  ps.filter (fun p => p.split_test)

/-- One value of the `merged_group_access` dict: Python `False` (at least one
partition's merged group list excludes all students), Python `None` (no
restriction for that partition), or a list of allowed group ids. -/
inductive GroupAccessVal where
  | denied : GroupAccessVal
  | noRestriction : GroupAccessVal
  | group_ids : List Nat → GroupAccessVal
deriving DecidableEq, Repr

/-- A generic XBlock descriptor: the attributes the access checks read.
`merged_group_access` is the already-merged partition-id → directive dict
(ancestor merging is an external collaborator; dict keys are unique),
rendered as an association list.  `class_tags` renders `_class_tags`. -/
structure Descriptor where
  location : Location
  start : Option Rat
  days_early_for_beta : Option Rat
  visible_to_staff_only : Bool
  user_partitions : List UserPartition
  merged_group_access : List (Nat × GroupAccessVal)
  class_tags : List String
deriving DecidableEq, Repr

/-- Modelled from the spec: `descriptor._get_user_partition(partition_id)`
(in xmodule, not part of this excerpt) resolves a partition id to the
declared partition object, raising `NoSuchUserPartitionError` (rendered
`none`) when no declared partition has that id. -/
def Descriptor.get_user_partition (d : Descriptor) (pid : Nat) : Option UserPartition :=
  d.user_partitions.find? (fun p => p.id == pid)

/-- A `CourseDescriptor`: a descriptor with the course-level fields the
course policy function reads. -/
structure Course extends Descriptor where
  id : CourseKey
  enrollment_start : Option Rat
  enrollment_end : Option Rat
  enrollment_domain : Option String
  invitation_only : Bool
  ispublic : Bool
  mobile_available : Bool
  catalog_visibility : String
  pre_requisite_courses : List CourseKey
deriving DecidableEq, Repr

/-- A `CourseOverview`: the projection of a course the overview policy
function reads (no enrollment or catalog fields). -/
structure CourseOverview where
  location : Location
  start : Option Rat
  days_early_for_beta : Option Rat
  id : CourseKey
  visible_to_staff_only : Bool
  mobile_available : Bool
  pre_requisite_courses : List CourseKey
deriving DecidableEq, Repr

/-- The duck-typed course interface shared by `_can_load_course_on_mobile`,
`is_mobile_available_for_user` and
`_can_view_courseware_with_prerequisites`: both `CourseDescriptor` and
`CourseOverview` expose these attributes. -/
structure CourseLike where
  location : Location
  id : CourseKey
  mobile_available : Bool
  pre_requisite_courses : List CourseKey
deriving DecidableEq, Repr

/-- View a `Course` through the duck-typed course interface. -/
def Course.like (c : Course) : CourseLike :=
  { location := c.location, id := c.id, mobile_available := c.mobile_available,
    pre_requisite_courses := c.pre_requisite_courses }

/-- View a `CourseOverview` through the duck-typed course interface. -/
def CourseOverview.like (o : CourseOverview) : CourseLike :=
  { location := o.location, id := o.id, mobile_available := o.mobile_available,
    pre_requisite_courses := o.pre_requisite_courses }

/-- Modelled from the spec: `xmodule.course_module` catalog-visibility
constant `CATALOG_VISIBILITY_CATALOG_AND_ABOUT` (not part of this excerpt). -/
def CATALOG_VISIBILITY_CATALOG_AND_ABOUT : String := "both"

/-- Modelled from the spec: `xmodule.course_module` catalog-visibility
constant `CATALOG_VISIBILITY_ABOUT` (not part of this excerpt). -/
def CATALOG_VISIBILITY_ABOUT : String := "about"

/-- The external world the checks consult: `settings.FEATURES` flags, the
clock, the request hostname, role membership (`GlobalStaff`,
`CourseStaffRole`, `OrgStaffRole`, `CourseInstructorRole`,
`OrgInstructorRole`, `CourseBetaTesterRole`), masquerade state, external-auth
records, the enrollment allowlist, milestones, prerequisite completion and
partition group assignment. -/
structure Env where
  now : Rat
  disableStartDates : Bool
  restrictEnrollByRegMethod : Bool
  accessRequireStaffForCourse : Bool
  enablePrerequisiteCourses : Bool
  currentHostname : Option String
  previewDomain : String
  globalStaff : User → Bool
  courseStaff : CourseKey → User → Bool
  courseInstructor : CourseKey → User → Bool
  orgStaff : String → User → Bool
  orgInstructor : String → User → Bool
  betaTester : Option CourseKey → User → Bool
  isMasqueradingAsStudent : User → Option CourseKey → Bool
  externalAuthMatches : User → String → Bool
  enrollmentAllowed : String → CourseKey → Bool
  anyUnfulfilledMilestones : CourseKey → User → Bool
  preReqNotCompleted : User → List CourseKey → Bool
  getGroupForUser : Option CourseKey → User → UserPartition → Option Nat

/-- `in_preview_mode()`: the request hostname's dot-separated labels contain
the configured preview domain (`bool(hostname and PREVIEW_DOMAIN in
hostname.split('.'))`; an absent or empty hostname is falsy). -/
def in_preview_mode (env : Env) : Bool :=
  match env.currentHostname with
  | none => false
  | some h => !(h == "") && (h.splitOn (".")).contains env.previewDomain

/-- `_has_access_to_course(user, access_level, course_key)`: authenticated,
not masquerading as a student in the course, then global staff, then the
scoped staff / instructor roles (instructor also satisfies a staff query).
An `access_level` outside `{staff, instructor}` is logged and denied. -/
def has_access_to_course (env : Env) (user : User) (access_level : String)
    (course_key : CourseKey) : Bool :=
  if !user.is_authenticated then false
  else if env.isMasqueradingAsStudent user (some course_key) then false
  else if env.globalStaff user then true
  else if !(access_level == "staff" || access_level == "instructor") then false
  else
    let staff_access :=
      env.courseStaff course_key user || env.orgStaff course_key.org user
    if staff_access && access_level == "staff" then true
    else
      let instructor_access :=
        env.courseInstructor course_key user || env.orgInstructor course_key.org user
      if instructor_access && (access_level == "staff" || access_level == "instructor")
      then true
      else false

/-- `_has_staff_access_to_location`: when no `course_key` is passed, the
location's own course key is used.  (Python dereferences
`location.course_key`, so the call never happens with both absent; that
unreachable case is rendered `false`.) -/
def has_staff_access_to_location (env : Env) (user : User)
    (location : Option Location) (course_key : Option CourseKey) : Bool :=
  match course_key with
  | some ck => has_access_to_course env user ("staff") ck
  | none =>
    match location with
    | some loc => has_access_to_course env user ("staff") loc.course_key
    | none => false

/-- `_has_instructor_access_to_location`, same key resolution. -/
def has_instructor_access_to_location (env : Env) (user : User)
    (location : Option Location) (course_key : Option CourseKey) : Bool :=
  match course_key with
  | some ck => has_access_to_course env user ("instructor") ck
  | none =>
    match location with
    | some loc => has_access_to_course env user ("instructor") loc.course_key
    | none => false

/-- `_has_staff_access_to_descriptor(user, descriptor, course_key)`: the
Python function reads `descriptor.location`, passed here explicitly. -/
def has_staff_access_to_descriptor (env : Env) (user : User)
    (location : Location) (course_key : Option CourseKey) : Bool :=
  has_staff_access_to_location env user (some location) course_key

/-- `_has_instructor_access_to_descriptor(user, descriptor, course_key)`. -/
def has_instructor_access_to_descriptor (env : Env) (user : User)
    (location : Location) (course_key : Option CourseKey) : Bool :=
  has_instructor_access_to_location env user (some location) course_key

/-- `_adjust_start_date_for_beta_testers(user, descriptor, course_key)`: the
Python function reads `descriptor.start` and `descriptor.days_early_for_beta`,
passed here explicitly.  With a beta offset set and the beta-tester role
held, the start is shifted `days_early_for_beta` days earlier.  (Python would
raise a `TypeError` on `None - timedelta`; the docstring requires a non-None
start in that branch, rendered here with `Option.map`.) -/
def adjust_start_date_for_beta_testers (env : Env) (user : User)
    (start days_early_for_beta : Option Rat) (course_key : Option CourseKey) :
    Option Rat :=
  match days_early_for_beta with
  | none => start
  | some days =>
    if env.betaTester course_key user then
      start.map (fun s => s - days)
    else
      start

/-- `_can_access_descriptor_with_start_date(user, descriptor, course_key)`:
reads `descriptor.start` and `descriptor.days_early_for_beta`, passed here
explicitly.  True when start dates are disabled (unless masquerading as a
student), when no start date is set, when `now` is past the (beta-adjusted)
effective start, or in preview mode. -/
def can_access_descriptor_with_start_date (env : Env) (user : User)
    (start days_early_for_beta : Option Rat) (course_key : Option CourseKey) :
    Bool :=
  if env.disableStartDates && !(env.isMasqueradingAsStudent user course_key) then
    true
  else
    let effective_start :=
      adjust_start_date_for_beta_testers env user start days_early_for_beta course_key
    start.isNone
      || (match effective_start with
          | some e => decide (env.now > e)
          | none => false)
      || in_preview_mode env

/-- `is_mobile_available_for_user(user, descriptor)`: the course's
`mobile_available` flag, or the beta-tester role for the course, or staff
access (`auth.has_access(user, CourseBetaTesterRole(descriptor.id))` is the
role-directory beta membership check). -/
def is_mobile_available_for_user (env : Env) (user : User) (c : CourseLike) : Bool :=
  c.mobile_available
    || env.betaTester (some c.id) user
    || has_staff_access_to_descriptor env user c.location (some c.id)

/-- `_can_load_course_on_mobile(user, course)`: mobile-available for the
user, and (staff access or no unfulfilled milestones for the course). -/
def can_load_course_on_mobile (env : Env) (user : User) (c : CourseLike) : Bool :=
  is_mobile_available_for_user env user c
    && (has_staff_access_to_descriptor env user c.location (some c.id)
        || !env.anyUnfulfilledMilestones c.id user)

/-- `_can_view_courseware_with_prerequisites(user, course)`. -/
def can_view_courseware_with_prerequisites (env : Env) (user : User)
    (c : CourseLike) : Bool :=
  !env.enablePrerequisiteCourses
    || has_staff_access_to_descriptor env user c.location (some c.id)
    || c.pre_requisite_courses.isEmpty
    || user.is_anonymous
    || !env.preReqNotCompleted user [c.id]

/-- The partition/group resolution loop inside `_has_group_access`: for each
merged directive whose value is not `None`, resolve the partition id
(`_get_user_partition`, failure `none`), resolve each listed group id
(`partition.get_group`, failure `none`), and keep the `(partition, groups)`
pairs with a non-empty group list.  Python resolves all partitions first and
then all groups; interleaving them entry by entry yields the same verdict,
since either failure makes `_has_group_access` return `False`.  (A Python
`False` value cannot reach this loop — `_has_group_access` returns before —
and is rendered as a failure.) -/
def collect_partition_groups (d : Descriptor) :
    List (Nat × GroupAccessVal) → Option (List (UserPartition × List Nat))
  | [] => some []
  | (pid, v) :: rest =>
    match v with
    | GroupAccessVal.noRestriction => collect_partition_groups d rest
    | GroupAccessVal.denied => none
    | GroupAccessVal.group_ids gids =>
      match d.get_user_partition pid with
      | none => none
      | some p =>
        match gids.mapM (fun g => p.get_group g) with
        | none => none
        | some groups =>
          match collect_partition_groups d rest with
          | none => none
          | some tail =>
            some (if groups.isEmpty then tail else (p, groups) :: tail)

/-- `_has_group_access(descriptor, user, course_key)`: short-circuit true
when every declared partition is split-test-owned; deny when any merged
directive is `False`; resolve partitions and groups (deny on any failure);
then grant iff the user's assigned group for each restricted partition is
among that partition's allowed groups (`user_groups.get(partition.id) in
groups` — an unassigned user, `None`, is in no group list). -/
def has_group_access (env : Env) (d : Descriptor) (user : User)
    (course_key : Option CourseKey) : Bool :=
  if d.user_partitions.length = (get_split_user_partitions d.user_partitions).length
  then true
  else if d.merged_group_access.any (fun kv => kv.2 == GroupAccessVal.denied)
  then false
  else
    match collect_partition_groups d d.merged_group_access with
    | none => false
    | some partition_groups =>
      partition_groups.all (fun pg =>
        match env.getGroupForUser course_key user pg.1 with
        | some g => pg.2.contains g
        | none => false)

/-- The `can_load` closure of `_has_access_descriptor`: not staff-only
visible, group access, and (detached tag or visible by start date) — or
staff access overrides. -/
def descriptor_can_load (env : Env) (user : User) (d : Descriptor)
    (course_key : Option CourseKey) : Bool :=
  (!d.visible_to_staff_only
      && has_group_access env d user course_key
      && (d.class_tags.contains ("detached")
          || can_access_descriptor_with_start_date env user d.start
              d.days_early_for_beta course_key))
    || has_staff_access_to_descriptor env user d.location course_key

/-- The error raised by `_dispatch` (and by the course-overview checker) for
an action missing from the resource kind's table: Python `raise ValueError
("Unknown action ...")`.  (`has_access`'s `TypeError` for an unknown object
type cannot arise here: the `Resource` union is closed.) -/
inductive AccessError where
  | unknownAction : AccessError
deriving DecidableEq, Repr

/-- `_has_access_descriptor(user, action, descriptor, course_key)`: the
generic-descriptor checkers table (`load`, `staff`, `instructor`) dispatched
via `_dispatch` — a missing action raises. -/
def has_access_descriptor (env : Env) (user : User) (action : String)
    (d : Descriptor) (course_key : Option CourseKey) : Except AccessError Bool :=
  if action == "load" then
    Except.ok (descriptor_can_load env user d course_key)
  else if action == "staff" then
    Except.ok (has_staff_access_to_descriptor env user d.location course_key)
  else if action == "instructor" then
    Except.ok (has_instructor_access_to_descriptor env user d.location course_key)
  else Except.error AccessError.unknownAction

/-- The `can_load` closure of `_has_access_course_desc`: delegates to the
generic descriptor `load` logic with the course's own key.  (`load` is in
the generic table, so the delegated call always returns a boolean.) -/
def course_can_load (env : Env) (user : User) (c : Course) : Bool :=
  descriptor_can_load env user c.toDescriptor (some c.id)

/-- The `can_enroll` closure of `_has_access_course_desc`: registration-
method restriction (when the feature is on and the course declares an
enrollment domain), the enrollment allowlist (authenticated users, by
email), staff override, invitation-only denial, and the enrollment window
`start < now < end` (missing bounds default to `datetime.min` /
`datetime.max`, which never constrain a real `now`).  The Python closure
falls off the end returning `None` on the remaining case, a falsy value,
rendered `false`. -/
def can_enroll (env : Env) (user : User) (c : Course) : Bool :=
  let reg_method_ok :=
    match c.enrollment_domain with
    | some dom =>
      if env.restrictEnrollByRegMethod then
        user.is_authenticated && env.externalAuthMatches user dom
      else true
    | none => true
  if user.is_authenticated && env.enrollmentAllowed user.email c.id then true
  else if has_staff_access_to_descriptor env user c.location (some c.id) then true
  else if c.invitation_only then false
  else
    let start_ok :=
      match c.enrollment_start with
      | some s => decide (s < env.now)
      | none => true
    let end_ok :=
      match c.enrollment_end with
      | some e => decide (env.now < e)
      | none => true
    if reg_method_ok && start_ok && end_ok then true else false

/-- The `see_exists` closure of `_has_access_course_desc`: under the legacy
`ACCESS_REQUIRE_STAFF_FOR_COURSE` flag, public courses or staff only
(a deprecation telemetry event, a side effect, is dropped); otherwise
`can_enroll() or can_load()`. -/
def see_exists (env : Env) (user : User) (c : Course) : Bool :=
  if env.accessRequireStaffForCourse then
    if c.ispublic then true
    else has_staff_access_to_descriptor env user c.location (some c.id)
  else can_enroll env user c || course_can_load env user c

/-- The `can_see_in_catalog` closure of `_has_access_course_desc`. -/
def can_see_in_catalog (env : Env) (user : User) (c : Course) : Bool :=
  c.catalog_visibility == CATALOG_VISIBILITY_CATALOG_AND_ABOUT
    || has_staff_access_to_descriptor env user c.location (some c.id)

/-- The `can_see_about_page` closure of `_has_access_course_desc`. -/
def can_see_about_page (env : Env) (user : User) (c : Course) : Bool :=
  c.catalog_visibility == CATALOG_VISIBILITY_CATALOG_AND_ABOUT
    || c.catalog_visibility == CATALOG_VISIBILITY_ABOUT
    || has_staff_access_to_descriptor env user c.location (some c.id)

/-- `_has_access_course_desc(user, action, course)`: the course checkers
table dispatched via `_dispatch` — a missing action raises. -/
def has_access_course_desc (env : Env) (user : User) (action : String)
    (c : Course) : Except AccessError Bool :=
  if action == "load" then
    Except.ok (course_can_load env user c)
  else if action == "view_courseware_with_prerequisites" then
    Except.ok (can_view_courseware_with_prerequisites env user c.like)
  else if action == "load_mobile" then
    Except.ok (course_can_load env user c && can_load_course_on_mobile env user c.like)
  else if action == "enroll" then
    Except.ok (can_enroll env user c)
  else if action == "see_exists" then
    Except.ok (see_exists env user c)
  else if action == "staff" then
    Except.ok (has_staff_access_to_descriptor env user c.location (some c.id))
  else if action == "instructor" then
    Except.ok (has_instructor_access_to_descriptor env user c.location (some c.id))
  else if action == "see_in_catalog" then
    Except.ok (can_see_in_catalog env user c)
  else if action == "see_about_page" then
    Except.ok (can_see_about_page env user c)
  else Except.error AccessError.unknownAction

/-- `_can_load_course_overview(user, course_overview)`. -/
def can_load_course_overview (env : Env) (user : User) (o : CourseOverview) : Bool :=
  (!o.visible_to_staff_only
      && can_access_descriptor_with_start_date env user o.start
          o.days_early_for_beta (some o.id))
    || has_staff_access_to_descriptor env user o.location (some o.id)

/-- `_has_access_course_overview(user, action, course_overview)`: the
`_COURSE_OVERVIEW_CHECKERS` table; a missing action raises.  (The Python
error path is a `raise ValueError` whose format string `'{1}'` indexes a
missing argument, so the exception actually raised is an `IndexError`;
either way the check raises rather than returning.) -/
def has_access_course_overview (env : Env) (user : User) (action : String)
    (o : CourseOverview) : Except AccessError Bool :=
  if action == "load" then
    Except.ok (can_load_course_overview env user o)
  else if action == "load_mobile" then
    Except.ok (can_load_course_overview env user o
      && can_load_course_on_mobile env user o.like)
  else if action == "view_courseware_with_prerequisites" then
    Except.ok (can_view_courseware_with_prerequisites env user o.like)
  else Except.error AccessError.unknownAction

/-- `_has_access_error_desc(user, action, descriptor, course_key)`: `load`
and `staff` are both the `check_for_staff` closure; `instructor` is the
instructor check; a missing action raises. -/
def has_access_error_desc (env : Env) (user : User) (action : String)
    (d : Descriptor) (course_key : Option CourseKey) : Except AccessError Bool :=
  if action == "load" then
    Except.ok (has_staff_access_to_descriptor env user d.location course_key)
  else if action == "staff" then
    Except.ok (has_staff_access_to_descriptor env user d.location course_key)
  else if action == "instructor" then
    Except.ok (has_instructor_access_to_descriptor env user d.location course_key)
  else Except.error AccessError.unknownAction

/-- `_has_access_location(user, action, location, course_key)`: `staff`
only. -/
def has_access_location (env : Env) (user : User) (action : String)
    (location : Location) (course_key : Option CourseKey) : Except AccessError Bool :=
  if action == "staff" then
    Except.ok (has_staff_access_to_location env user (some location) course_key)
  else Except.error AccessError.unknownAction

/-- `_has_access_course_key(user, action, course_key)`: `staff` and
`instructor`, resolved against the key itself (no location). -/
def has_access_course_key (env : Env) (user : User) (action : String)
    (course_key : CourseKey) : Except AccessError Bool :=
  if action == "staff" then
    Except.ok (has_staff_access_to_location env user none (some course_key))
  else if action == "instructor" then
    Except.ok (has_instructor_access_to_location env user none (some course_key))
  else Except.error AccessError.unknownAction

/-- `_has_access_ccx_key(user, action, ccx_key)`: normalize to the course
locator, then the course-key checks. -/
def has_access_ccx_key (env : Env) (user : User) (action : String)
    (ccx : CCXLocator) : Except AccessError Bool :=
  has_access_course_key env user action ccx.to_course_locator

/-- `_has_access_string(user, action, perm)`: `staff` only; any string other
than `"global"` is denied (not an error), `"global"` asks `GlobalStaff`. -/
def has_access_string (env : Env) (user : User) (action : String)
    (perm : String) : Except AccessError Bool :=
  if action == "staff" then
    Except.ok (if !(perm == "global") then false else env.globalStaff user)
  else Except.error AccessError.unknownAction

/-- The closed union of object types `has_access` understands, in the order
the Python `isinstance` chain tests them.  An `XModule` carries no policy of
its own: it delegates to its descriptor through `has_access`, so its payload
is again a `Resource` (in Python the descriptor attribute can be any of
these types). -/
inductive Resource where
  | course : Course → Resource
  | courseOverview : CourseOverview → Resource
  | errorDesc : Descriptor → Resource
  | xmodule : Resource → Resource
  | descriptor : Descriptor → Resource
  | ccxKey : CCXLocator → Resource
  | courseKey : CourseKey → Resource
  | usageKey : Location → Resource
  | str : String → Resource

/-- `has_access(user, action, obj, course_key)`: substitute `AnonymousUser`
for a missing user, then dispatch on the object's type, most specific first.
(The `CCXLocator` normalization of the `course_key` argument is rendered by
taking the argument already in canonical `CourseKey` form; the final
`TypeError` branch is unreachable over the closed `Resource` union.) -/
def has_access (env : Env) (user : Option User) (action : String)
    (obj : Resource) (course_key : Option CourseKey) : Except AccessError Bool :=
  let u := user.getD AnonymousUser
  match obj with
  | Resource.course c => has_access_course_desc env u action c
  | Resource.courseOverview o => has_access_course_overview env u action o
  | Resource.errorDesc d => has_access_error_desc env u action d course_key
  | Resource.xmodule inner => has_access env (some u) action inner course_key
  | Resource.descriptor d => has_access_descriptor env u action d course_key
  | Resource.ccxKey k => has_access_ccx_key env u action k
  | Resource.courseKey ck => has_access_course_key env u action ck
  | Resource.usageKey loc => has_access_location env u action loc course_key
  | Resource.str s => has_access_string env u action s

/-- The action names present in each resource kind's checkers table (an
`XModule` supports exactly its descriptor's actions). -/
def supported_actions : Resource → List String
  | Resource.course _ =>
    ["load", "view_courseware_with_prerequisites", "load_mobile", "enroll",
     "see_exists", "staff", "instructor", "see_in_catalog", "see_about_page"]
  | Resource.courseOverview _ =>
    ["load", "load_mobile", "view_courseware_with_prerequisites"]
  | Resource.errorDesc _ => ["load", "staff", "instructor"]
  | Resource.xmodule inner => supported_actions inner
  | Resource.descriptor _ => ["load", "staff", "instructor"]
  | Resource.ccxKey _ => ["staff", "instructor"]
  | Resource.courseKey _ => ["staff", "instructor"]
  | Resource.usageKey _ => ["staff"]
  | Resource.str _ => ["staff"]

/-- The resource kinds whose checkers table contains the action `staff`
(for a string resource, only the meaningful literal `"global"`). -/
def exposes_staff : Resource → Bool
  | Resource.course _ => true
  | Resource.courseOverview _ => false
  | Resource.errorDesc _ => true
  | Resource.xmodule inner => exposes_staff inner
  | Resource.descriptor _ => true
  | Resource.ccxKey _ => true
  | Resource.courseKey _ => true
  | Resource.usageKey _ => true
  | Resource.str s => s == "global"

/-- The resource kinds whose `staff` action is resolved against a course
scope through `_has_access_to_course` (everything exposing `staff` except
the global permission string). -/
def exposes_scoped_staff : Resource → Bool
  | Resource.xmodule inner => exposes_scoped_staff inner
  | Resource.str _ => false
  | r => exposes_staff r

/-- The course key against which a `staff` query on the given resource is
resolved (`none` for strings, whose check is unscoped). -/
def staff_check_key : Resource → Option CourseKey → Option CourseKey
  | Resource.course c, _ => some c.id
  | Resource.courseOverview o, _ => some o.id
  | Resource.errorDesc d, ck => some (ck.getD d.location.course_key)
  | Resource.xmodule inner, ck => staff_check_key inner ck
  | Resource.descriptor d, ck => some (ck.getD d.location.course_key)
  | Resource.ccxKey k, _ => some k.to_course_locator
  | Resource.courseKey k, _ => some k
  | Resource.usageKey loc, ck => some (ck.getD loc.course_key)
  | Resource.str _, _ => none

/-! ### Concrete fixtures used by counterexamples and witnesses -/

/-- A sample course key. -/
def ck0 : CourseKey := { org := "OrgX", course := "CS101" }

/-- A sample location inside `ck0`. -/
def loc0 : Location := { course_key := ck0 }

/-- An authenticated ordinary user. -/
def alice : User := { is_authenticated := true, email := "alice@example.com" }

/-- An environment where every feature flag is off, every role and override
lookup is empty, and the clock reads day 100. -/
def baseEnv : Env :=
  { now := 100
    disableStartDates := false
    restrictEnrollByRegMethod := false
    accessRequireStaffForCourse := false
    enablePrerequisiteCourses := false
    currentHostname := none
    previewDomain := "preview"
    globalStaff := fun _ => false
    courseStaff := fun _ _ => false
    courseInstructor := fun _ _ => false
    orgStaff := fun _ _ => false
    orgInstructor := fun _ _ => false
    betaTester := fun _ _ => false
    isMasqueradingAsStudent := fun _ _ => false
    externalAuthMatches := fun _ _ => false
    enrollmentAllowed := fun _ _ => false
    anyUnfulfilledMilestones := fun _ _ => false
    preReqNotCompleted := fun _ _ => false
    getGroupForUser := fun _ _ _ => none }

/-- `baseEnv` with the global-staff role granted to everyone. -/
def envGlobal : Env := { baseEnv with globalStaff := fun _ => true }

/-- `baseEnv` with every user masquerading as a student everywhere and the
course-staff role granted to everyone (the role the masquerade must
suppress). -/
def envMasq : Env :=
  { baseEnv with
    isMasqueradingAsStudent := fun _ _ => true
    courseStaff := fun _ _ => true }

/-- `baseEnv` with the course-instructor role granted to everyone (and
nobody global staff). -/
def envInstr : Env := { baseEnv with courseInstructor := fun _ _ => true }

/-- `baseEnv` with the beta-tester role granted to everyone. -/
def envBeta : Env := { baseEnv with betaTester := fun _ _ => true }

/-- `baseEnv` where every course has unfulfilled milestones for every
user. -/
def envMilestones : Env :=
  { baseEnv with anyUnfulfilledMilestones := fun _ _ => true }

/-- A descriptor declaring no user partitions but carrying a merged
directive whose group list excludes all students (Python `False`). -/
def dNoPartitions : Descriptor :=
  { location := loc0
    start := none
    days_early_for_beta := none
    visible_to_staff_only := false
    user_partitions := []
    merged_group_access := [(0, GroupAccessVal.denied)]
    class_tags := [] }

/-- A non-split-test partition. -/
def p1 : UserPartition := { id := 1, split_test := false, groups := [10, 11] }

/-- A descriptor declaring the ordinary partition `p1` and a merged
directive that excludes all students. -/
def dDenied : Descriptor :=
  { location := loc0
    start := none
    days_early_for_beta := none
    visible_to_staff_only := false
    user_partitions := [p1]
    merged_group_access := [(1, GroupAccessVal.denied)]
    class_tags := [] }

/-- A descriptor with a started, beta-offset course window. -/
def dBeta : Descriptor :=
  { location := loc0
    start := some 10
    days_early_for_beta := some 3
    visible_to_staff_only := false
    user_partitions := []
    merged_group_access := []
    class_tags := [] }

/-- A mobile-available course that any user can load (started, no
partitions, not staff-only). -/
def cMobile : Course :=
  { location := loc0
    start := some 0
    days_early_for_beta := none
    visible_to_staff_only := false
    user_partitions := []
    merged_group_access := []
    class_tags := []
    id := ck0
    enrollment_start := none
    enrollment_end := none
    enrollment_domain := none
    invitation_only := false
    ispublic := false
    mobile_available := true
    catalog_visibility := "both"
    pre_requisite_courses := [] }

/-- A course whose enrollment window `(0, 200)` is open at `now = 100`. -/
def courseA : Course :=
  { cMobile with enrollment_start := some 0, enrollment_end := some 200 }

/-- A course whose enrollment window closed at day 50, before `now = 100`. -/
def courseB : Course :=
  { cMobile with enrollment_start := some 0, enrollment_end := some 50 }

/-! ### Reduction equations for `staff` queries (proved by `rfl`) and core
lemmas about `_has_access_to_course` -/

/-- A `staff` query on a course descriptor resolves against the course's
own key. -/
theorem has_access_course_staff_eq (env : Env) (u : User) (c : Course)
    (ck : Option CourseKey) :
    has_access env (some u) ("staff") (Resource.course c) ck
      = Except.ok (has_access_to_course env u ("staff") c.id) := rfl

/-- A `staff` query on an error descriptor resolves via its location. -/
theorem has_access_error_staff_eq (env : Env) (u : User) (d : Descriptor)
    (ck : Option CourseKey) :
    has_access env (some u) ("staff") (Resource.errorDesc d) ck
      = Except.ok (has_staff_access_to_location env u (some d.location) ck) := rfl

/-- A `staff` query on a generic descriptor resolves via its location. -/
theorem has_access_descriptor_staff_eq (env : Env) (u : User) (d : Descriptor)
    (ck : Option CourseKey) :
    has_access env (some u) ("staff") (Resource.descriptor d) ck
      = Except.ok (has_staff_access_to_location env u (some d.location) ck) := rfl

/-- An `XModule` delegates every query to its descriptor. -/
theorem has_access_xmodule_eq (env : Env) (u : User) (action : String)
    (inner : Resource) (ck : Option CourseKey) :
    has_access env (some u) action (Resource.xmodule inner) ck
      = has_access env (some u) action inner ck := rfl

/-- A `staff` query on a CCX key resolves against the underlying course
locator. -/
theorem has_access_ccx_staff_eq (env : Env) (u : User) (k : CCXLocator)
    (ck : Option CourseKey) :
    has_access env (some u) ("staff") (Resource.ccxKey k) ck
      = Except.ok (has_access_to_course env u ("staff") k.to_course_locator) := rfl

/-- A `staff` query on a course key resolves against that key. -/
theorem has_access_course_key_staff_eq (env : Env) (u : User) (k : CourseKey)
    (ck : Option CourseKey) :
    has_access env (some u) ("staff") (Resource.courseKey k) ck
      = Except.ok (has_access_to_course env u ("staff") k) := rfl

/-- A `staff` query on a usage key resolves via the location. -/
theorem has_access_usage_staff_eq (env : Env) (u : User) (loc : Location)
    (ck : Option CourseKey) :
    has_access env (some u) ("staff") (Resource.usageKey loc) ck
      = Except.ok (has_staff_access_to_location env u (some loc) ck) := rfl

/-- A `staff` query on a permission string: denied unless the string is
`"global"`, in which case `GlobalStaff` membership decides. -/
theorem has_access_string_staff_eq (env : Env) (u : User) (s : String)
    (ck : Option CourseKey) :
    has_access env (some u) ("staff") (Resource.str s) ck
      = Except.ok (if !(s == "global") then false else env.globalStaff u) := rfl

/-- A located `staff` query targets the explicit course key when one is
passed, the location's own course key otherwise. -/
theorem has_staff_access_to_location_getD (env : Env) (u : User) (l : Location)
    (ck : Option CourseKey) :
    has_staff_access_to_location env u (some l) ck
      = has_access_to_course env u ("staff") (ck.getD l.course_key) := by
  cases ck <;> rfl

/-- Masquerading as a student in a course makes `_has_access_to_course`
deny, whatever roles the user holds and whatever the access level. -/
theorem masquerade_denies_course_access (env : Env) (u : User) (lvl : String)
    (ck : CourseKey) (hm : env.isMasqueradingAsStudent u (some ck) = true) :
    has_access_to_course env u lvl ck = false := by
  cases ha : u.is_authenticated <;> simp [has_access_to_course, ha, hm]

/-- An authenticated, non-masquerading global-staff user passes
`_has_access_to_course` at every level. -/
theorem global_staff_grants_course_access (env : Env) (u : User) (lvl : String)
    (ck : CourseKey) (hauth : u.is_authenticated = true)
    (hm : env.isMasqueradingAsStudent u (some ck) = false)
    (hg : env.globalStaff u = true) :
    has_access_to_course env u lvl ck = true := by
  simp [has_access_to_course, hauth, hm, hg]

/-- An authenticated, non-masquerading holder of the course- or
org-instructor role passes a `staff`-level `_has_access_to_course` query. -/
theorem instructor_grants_staff_course_access (env : Env) (u : User)
    (ck : CourseKey) (hauth : u.is_authenticated = true)
    (hm : env.isMasqueradingAsStudent u (some ck) = false)
    (hinstr : env.courseInstructor ck u = true ∨ env.orgInstructor ck.org u = true) :
    has_access_to_course env u ("staff") ck = true := by
  cases hg : env.globalStaff u with
  | true => simp [has_access_to_course, hauth, hm, hg]
  | false =>
    cases hcs : env.courseStaff ck u <;> cases hos : env.orgStaff ck.org u <;>
      rcases hinstr with h | h <;>
        simp [has_access_to_course, hauth, hm, hg, hcs, hos, h]

/-! ### Claim theorems -/

/-- C9: for the error-descriptor resource kind, the `load` and `staff`
policy checks coincide for every environment, user, descriptor and scope
(both are the staff-access check). -/
theorem error_desc_load_eq_staff (env : Env) (u : User) (d : Descriptor)
    (ck : Option CourseKey) :
    has_access_error_desc env u ("load") d ck
      = has_access_error_desc env u ("staff") d ck := rfl

/-- C10: a descriptor that declares zero user partitions passes
`_has_group_access` for every environment, user and scope — the split-test
short-circuit (`0 == 0`) fires before the fail-closed checks, so merged
directives are never examined. -/
theorem no_partitions_group_access_true (env : Env) (d : Descriptor)
    (u : User) (ck : Option CourseKey) (h : d.user_partitions = []) :
    has_group_access env d u ck = true := by
  simp [has_group_access, h, get_split_user_partitions]

/-- Witness for C10, on a descriptor whose merged directives would exclude
all students were they examined. -/
theorem no_partitions_group_access_true_witness :
    has_group_access baseEnv dNoPartitions alice none = true :=
  no_partitions_group_access_true baseEnv dNoPartitions alice none rfl

/-- C2, counterexample: a descriptor with an explicitly empty (Python
`False`) merged group directive but zero declared partitions grants group
access to an ordinary user — the claim's unconditional fail-closed denial
is false. -/
theorem empty_group_list_not_always_denied :
    dNoPartitions.merged_group_access.any
        (fun kv => kv.2 == GroupAccessVal.denied) = true
    ∧ has_group_access baseEnv dNoPartitions alice none = true :=
  ⟨rfl, rfl⟩

/-- C2, amended: if some merged directive's group list is explicitly empty
(Python `False`) and the split-test short-circuit does not fire (the
declared partitions are not all split-test-owned), then `_has_group_access`
denies for every actor and scope. -/
theorem empty_group_list_denies (env : Env) (d : Descriptor) (u : User)
    (ck : Option CourseKey)
    (hden : d.merged_group_access.any
        (fun kv => kv.2 == GroupAccessVal.denied) = true)
    (hsplit : d.user_partitions.length
        ≠ (get_split_user_partitions d.user_partitions).length) :
    has_group_access env d u ck = false := by
  simp [has_group_access, hsplit, hden]

/-- Witness for the amended C2. -/
theorem empty_group_list_denies_witness :
    has_group_access baseEnv dDenied alice none = false :=
  empty_group_list_denies baseEnv dDenied alice none rfl (by decide)

/-- C7: with a non-null start, a beta tester with a non-null beta offset
`days` sees the start shifted `days` days earlier; a non-beta user, or a
null offset, leaves the start unchanged. -/
theorem beta_offset_adjusts_start (env : Env) (u : User)
    (ck : Option CourseKey) (d : Descriptor) (s : Rat)
    (hs : d.start = some s) :
    (∀ days : Rat, d.days_early_for_beta = some days →
      env.betaTester ck u = true →
      adjust_start_date_for_beta_testers env u d.start d.days_early_for_beta ck
        = some (s - days))
    ∧ ((env.betaTester ck u = false ∨ d.days_early_for_beta = none) →
      adjust_start_date_for_beta_testers env u d.start d.days_early_for_beta ck
        = some s) := by
  constructor
  · intro days hd hb
    simp [adjust_start_date_for_beta_testers, hs, hd, hb]
  · intro h
    rcases h with hb | hd
    · cases hd : d.days_early_for_beta <;>
        simp [adjust_start_date_for_beta_testers, hs, hd, hb]
    · simp [adjust_start_date_for_beta_testers, hs, hd]

/-- Witness for C7: a beta tester with offset 3 sees day `10 - 3`; the same
descriptor without the beta role keeps day 10. -/
theorem beta_offset_adjusts_start_witness :
    adjust_start_date_for_beta_testers envBeta alice dBeta.start
        dBeta.days_early_for_beta (some ck0) = some (10 - 3)
    ∧ adjust_start_date_for_beta_testers baseEnv alice dBeta.start
        dBeta.days_early_for_beta (some ck0) = some 10 :=
  ⟨(beta_offset_adjusts_start envBeta alice (some ck0) dBeta 10 rfl).1 3 rfl rfl,
   (beta_offset_adjusts_start baseEnv alice (some ck0) dBeta 10 rfl).2 (Or.inl rfl)⟩

/-- C6, counterexample: a loadable, mobile-flagged course with unfulfilled
milestones for a non-staff user — `can_load` and mobile-availability both
hold, yet `load_mobile` is denied, so the claimed iff is false. -/
theorem load_mobile_not_iff_claimed :
    course_can_load envMilestones alice cMobile = true
    ∧ is_mobile_available_for_user envMilestones alice cMobile.like = true
    ∧ has_access envMilestones (some alice) ("load_mobile")
        (Resource.course cMobile) none = Except.ok false :=
  ⟨rfl, rfl, rfl⟩

/-- C6, amended: `load_mobile` on a course returns true iff `can_load()`
holds AND the course is mobile-available for the user AND (the user has
staff access OR the user has no unfulfilled milestones for the course). -/
theorem load_mobile_iff (env : Env) (u : User) (c : Course)
    (ck : Option CourseKey) :
    has_access env (some u) ("load_mobile") (Resource.course c) ck
      = Except.ok (course_can_load env u c
          && (is_mobile_available_for_user env u c.like
              && (has_staff_access_to_descriptor env u c.like.location
                    (some c.like.id)
                  || !env.anyUnfulfilledMilestones c.like.id u))) := rfl

/-- C4: a user masquerading as a student in a scope is denied a `staff`
query on every resource resolved against that scope, whatever roles
(including course staff) the user holds. -/
theorem masquerade_suppresses_staff (env : Env) (u : User) (r : Resource)
    (ck : Option CourseKey) (sk : CourseKey)
    (hexp : exposes_scoped_staff r = true)
    (hkey : staff_check_key r ck = some sk)
    (hm : env.isMasqueradingAsStudent u (some sk) = true) :
    has_access env (some u) ("staff") r ck = Except.ok false := by
  induction r with
  | course c =>
    simp only [staff_check_key, Option.some.injEq] at hkey
    rw [has_access_course_staff_eq, hkey,
      masquerade_denies_course_access env u _ sk hm]
  | courseOverview o => simp [exposes_scoped_staff, exposes_staff] at hexp
  | errorDesc d =>
    simp only [staff_check_key, Option.some.injEq] at hkey
    rw [has_access_error_staff_eq, has_staff_access_to_location_getD, hkey,
      masquerade_denies_course_access env u _ sk hm]
  | xmodule inner ih =>
    rw [has_access_xmodule_eq]
    exact ih hexp hkey
  | descriptor d =>
    simp only [staff_check_key, Option.some.injEq] at hkey
    rw [has_access_descriptor_staff_eq, has_staff_access_to_location_getD,
      hkey, masquerade_denies_course_access env u _ sk hm]
  | ccxKey k =>
    simp only [staff_check_key, Option.some.injEq] at hkey
    rw [has_access_ccx_staff_eq, hkey,
      masquerade_denies_course_access env u _ sk hm]
  | courseKey k =>
    simp only [staff_check_key, Option.some.injEq] at hkey
    rw [has_access_course_key_staff_eq, hkey,
      masquerade_denies_course_access env u _ sk hm]
  | usageKey loc =>
    simp only [staff_check_key, Option.some.injEq] at hkey
    rw [has_access_usage_staff_eq, has_staff_access_to_location_getD, hkey,
      masquerade_denies_course_access env u _ sk hm]
  | str s => simp [exposes_scoped_staff] at hexp

/-- Witness for C4: a masquerading user who holds course staff everywhere
is denied `staff` on a course key. -/
theorem masquerade_suppresses_staff_witness :
    has_access envMasq (some alice) ("staff") (Resource.courseKey ck0) none
      = Except.ok false :=
  masquerade_suppresses_staff envMasq alice (Resource.courseKey ck0) none ck0
    rfl rfl rfl

/-- C1, counterexample: a global-staff user is denied a `staff` query on a
permission string other than `"global"`, so the claim's "true always, for
every resource kind" is false. -/
theorem global_staff_not_always_granted :
    envGlobal.globalStaff alice = true
    ∧ has_access envGlobal (some alice) ("staff")
        (Resource.str ("course_v1")) none = Except.ok false :=
  ⟨rfl, rfl⟩

/-- C1, amended: an authenticated global-staff user who is not masquerading
as a student anywhere is granted a `staff` query on every resource kind
whose checkers table exposes `staff` (course, error descriptor, generic
descriptor, module, CCX key, course key, usage key, and the literal
permission string `"global"`), for every scope. -/
theorem global_staff_staff_query_true (env : Env) (u : User) (r : Resource)
    (ck : Option CourseKey)
    (hauth : u.is_authenticated = true)
    (hm : ∀ k, env.isMasqueradingAsStudent u k = false)
    (hg : env.globalStaff u = true)
    (hexp : exposes_staff r = true) :
    has_access env (some u) ("staff") r ck = Except.ok true := by
  induction r with
  | course c =>
    rw [has_access_course_staff_eq,
      global_staff_grants_course_access env u _ _ hauth (hm _) hg]
  | courseOverview o => simp [exposes_staff] at hexp
  | errorDesc d =>
    rw [has_access_error_staff_eq, has_staff_access_to_location_getD,
      global_staff_grants_course_access env u _ _ hauth (hm _) hg]
  | xmodule inner ih =>
    rw [has_access_xmodule_eq]
    exact ih hexp
  | descriptor d =>
    rw [has_access_descriptor_staff_eq, has_staff_access_to_location_getD,
      global_staff_grants_course_access env u _ _ hauth (hm _) hg]
  | ccxKey k =>
    rw [has_access_ccx_staff_eq,
      global_staff_grants_course_access env u _ _ hauth (hm _) hg]
  | courseKey k =>
    rw [has_access_course_key_staff_eq,
      global_staff_grants_course_access env u _ _ hauth (hm _) hg]
  | usageKey loc =>
    rw [has_access_usage_staff_eq, has_staff_access_to_location_getD,
      global_staff_grants_course_access env u _ _ hauth (hm _) hg]
  | str s =>
    rw [has_access_string_staff_eq]
    simp only [exposes_staff] at hexp
    simp [hexp, hg]

/-- Witness for the amended C1. -/
theorem global_staff_staff_query_true_witness :
    has_access envGlobal (some alice) ("staff") (Resource.courseKey ck0) none
      = Except.ok true :=
  global_staff_staff_query_true envGlobal alice (Resource.courseKey ck0) none
    rfl (fun _ => rfl) rfl rfl

/-- C5, counterexample: the permission string `"global"` exposes the
`staff` action, yet a course-instructor who is not global staff is denied
on it, so "instructor implies staff for all resource kinds exposing staff"
is false. -/
theorem instructor_not_staff_on_global_string :
    exposes_staff (Resource.str ("global")) = true
    ∧ envInstr.courseInstructor ck0 alice = true
    ∧ has_access envInstr (some alice) ("staff")
        (Resource.str ("global")) none = Except.ok false :=
  ⟨rfl, rfl, rfl⟩

/-- C5, amended: an authenticated actor who is not masquerading as a
student anywhere and holds the course- or org-instructor role for the scope
a resource's `staff` query resolves against is granted that query, for
every resource kind whose `staff` action is resolved against a course scope
(every kind exposing `staff` except the global permission string). -/
theorem instructor_implies_staff (env : Env) (u : User) (r : Resource)
    (ck : Option CourseKey) (sk : CourseKey)
    (hauth : u.is_authenticated = true)
    (hm : ∀ k, env.isMasqueradingAsStudent u k = false)
    (hexp : exposes_scoped_staff r = true)
    (hkey : staff_check_key r ck = some sk)
    (hinstr : env.courseInstructor sk u = true
      ∨ env.orgInstructor sk.org u = true) :
    has_access env (some u) ("staff") r ck = Except.ok true := by
  induction r with
  | course c =>
    simp only [staff_check_key, Option.some.injEq] at hkey
    rw [has_access_course_staff_eq, hkey,
      instructor_grants_staff_course_access env u sk hauth (hm _) hinstr]
  | courseOverview o => simp [exposes_scoped_staff, exposes_staff] at hexp
  | errorDesc d =>
    simp only [staff_check_key, Option.some.injEq] at hkey
    rw [has_access_error_staff_eq, has_staff_access_to_location_getD, hkey,
      instructor_grants_staff_course_access env u sk hauth (hm _) hinstr]
  | xmodule inner ih =>
    rw [has_access_xmodule_eq]
    exact ih hexp hkey
  | descriptor d =>
    simp only [staff_check_key, Option.some.injEq] at hkey
    rw [has_access_descriptor_staff_eq, has_staff_access_to_location_getD,
      hkey, instructor_grants_staff_course_access env u sk hauth (hm _) hinstr]
  | ccxKey k =>
    simp only [staff_check_key, Option.some.injEq] at hkey
    rw [has_access_ccx_staff_eq, hkey,
      instructor_grants_staff_course_access env u sk hauth (hm _) hinstr]
  | courseKey k =>
    simp only [staff_check_key, Option.some.injEq] at hkey
    rw [has_access_course_key_staff_eq, hkey,
      instructor_grants_staff_course_access env u sk hauth (hm _) hinstr]
  | usageKey loc =>
    simp only [staff_check_key, Option.some.injEq] at hkey
    rw [has_access_usage_staff_eq, has_staff_access_to_location_getD, hkey,
      instructor_grants_staff_course_access env u sk hauth (hm _) hinstr]
  | str s => simp [exposes_scoped_staff] at hexp

/-- Witness for the amended C5. -/
theorem instructor_implies_staff_witness :
    has_access envInstr (some alice) ("staff") (Resource.courseKey ck0) none
      = Except.ok true :=
  instructor_implies_staff envInstr alice (Resource.courseKey ck0) none ck0
    rfl (fun _ => rfl) rfl rfl (Or.inl rfl)

/-- C8: for every resource kind, an action absent from that kind's checkers
table makes the access check raise (`Except.error`), never return a
boolean. -/
theorem unknown_action_raises (env : Env) (user : Option User)
    (action : String) (r : Resource) (ck : Option CourseKey)
    (h : action ∉ supported_actions r) :
    has_access env user action r ck = Except.error AccessError.unknownAction := by
  induction r generalizing user with
  | course c =>
    simp only [supported_actions, List.mem_cons, List.not_mem_nil, or_false,
      not_or] at h
    obtain ⟨h1, h2, h3, h4, h5, h6, h7, h8, h9⟩ := h
    simp [has_access, has_access_course_desc, h1, h2, h3, h4, h5, h6, h7, h8, h9]
  | courseOverview o =>
    simp only [supported_actions, List.mem_cons, List.not_mem_nil, or_false,
      not_or] at h
    obtain ⟨h1, h2, h3⟩ := h
    simp [has_access, has_access_course_overview, h1, h2, h3]
  | errorDesc d =>
    simp only [supported_actions, List.mem_cons, List.not_mem_nil, or_false,
      not_or] at h
    obtain ⟨h1, h2, h3⟩ := h
    simp [has_access, has_access_error_desc, h1, h2, h3]
  | xmodule inner ih =>
    cases user with
    | none => exact ih (some AnonymousUser) h
    | some u => exact ih (some u) h
  | descriptor d =>
    simp only [supported_actions, List.mem_cons, List.not_mem_nil, or_false,
      not_or] at h
    obtain ⟨h1, h2, h3⟩ := h
    simp [has_access, has_access_descriptor, h1, h2, h3]
  | ccxKey k =>
    simp only [supported_actions, List.mem_cons, List.not_mem_nil, or_false,
      not_or] at h
    obtain ⟨h1, h2⟩ := h
    simp [has_access, has_access_ccx_key, has_access_course_key, h1, h2]
  | courseKey ck2 =>
    simp only [supported_actions, List.mem_cons, List.not_mem_nil, or_false,
      not_or] at h
    obtain ⟨h1, h2⟩ := h
    simp [has_access, has_access_course_key, h1, h2]
  | usageKey loc =>
    simp only [supported_actions, List.mem_cons, List.not_mem_nil, or_false,
      not_or] at h
    simp [has_access, has_access_location, h]
  | str s =>
    simp only [supported_actions, List.mem_cons, List.not_mem_nil, or_false,
      not_or] at h
    simp [has_access, has_access_string, h]

/-- Witness for C8: the action `fly` is not supported by the permission
string kind, so checking it raises. -/
theorem unknown_action_raises_witness :
    has_access baseEnv (some alice) ("fly") (Resource.str ("global")) none
      = Except.error AccessError.unknownAction :=
  unknown_action_raises baseEnv (some alice) ("fly") (Resource.str ("global"))
    none (by decide)

/-- C3: for an authenticated non-staff user of a non-invitation-only course
with no registration-domain restriction, `can_enroll` is true when
`enrollment_start < now < enrollment_end`, and false when
`now > enrollment_end` and the user has no enrollment-allowlist entry. -/
theorem enrollment_window_controls_enroll (env : Env) (u : User) (c : Course)
    (hauth : u.is_authenticated = true)
    (hstaff : has_staff_access_to_descriptor env u c.location (some c.id) = false)
    (hdom : c.enrollment_domain = none)
    (hinv : c.invitation_only = false) :
    (∀ s e : Rat, c.enrollment_start = some s → c.enrollment_end = some e →
      s < env.now → env.now < e → can_enroll env u c = true)
    ∧ (∀ e : Rat, c.enrollment_end = some e → e < env.now →
      env.enrollmentAllowed u.email c.id = false → can_enroll env u c = false) := by
  constructor
  · intro s e hs he h1 h2
    cases hal : env.enrollmentAllowed u.email c.id with
    | true => simp [can_enroll, hauth, hal]
    | false =>
      simp [can_enroll, hauth, hal, hstaff, hinv, hdom, hs, he,
        decide_eq_true h1, decide_eq_true h2]
  · intro e he hlt hallow
    have hne : ¬(env.now < e) := not_lt.mpr hlt.le
    simp [can_enroll, hauth, hallow, hstaff, hinv, hdom, he,
      decide_eq_false hne]

/-- Witness for C3: enrollment succeeds in the open window of `courseA` and
fails after the closed window of `courseB`. -/
theorem enrollment_window_controls_enroll_witness :
    can_enroll baseEnv alice courseA = true
    ∧ can_enroll baseEnv alice courseB = false :=
  ⟨(enrollment_window_controls_enroll baseEnv alice courseA rfl rfl rfl rfl).1
      0 200 rfl rfl (by norm_num [baseEnv]) (by norm_num [baseEnv]),
   (enrollment_window_controls_enroll baseEnv alice courseB rfl rfl rfl rfl).2
      50 rfl (by norm_num [baseEnv]) rfl⟩

end EdxAccess
